import Mathlib

/-!
Shallow embedding of the cell-quality filtering pipeline implemented in
`src/seqc/filter.py`.

Modelling conventions:

* A count matrix is a list of rows (cells); each row is a list of
  non-negative integer counts (genes).  This mirrors the sparse matrices
  of the source, which only ever reach the pipeline through row sums,
  row selections and column selections.
* The validity mask `is_invalid` is a `List Bool`, `true` meaning
  "excluded", exactly as in the source.
* Floating point arithmetic of the source is embedded as exact rational
  arithmetic (ℚ).  Where the float code produces NaN (an all-zero sum
  normalised by itself, a mitochondrial fraction of an empty cell), the
  embedding reproduces the observable decision the float code takes on
  NaN (comparisons with NaN are false), as noted at each spot.
* The sklearn estimators (`GMM`, `LinearRegression`) are external
  libraries, not code of this repository; following the specification's
  own description of them as pluggable statistical primitives, their
  fitted outputs (BIC scores, component assignments, regression
  residuals) are parameters of the embedding (`StatModel`).  Every
  comparison and index manipulation performed on those outputs by
  `filter.py` itself is embedded faithfully.
* Each stage returns a `StageResult` carrying the resulting mask, a flag
  `isCopy` recording whether the returned mask is a freshly allocated
  array (the paths of the source that execute `.copy()`) or the input
  object itself (the pass-through `return is_invalid` paths), and a flag
  `warned` recording whether the stage emitted its pass-through warning.
-/

set_option maxRecDepth 1000000

/-- A count matrix: rows are cells, columns are genes. -/
abbrev Mat := List (List Nat)

/-- Entry of a boolean mask at position `j`; positions past the end read `false`. -/
def maskAt (m : List Bool) (j : Nat) : Bool := m.getD j false

/-- Number of `true` entries of a mask (`np.sum` over a boolean vector). -/
def countTrue (m : List Bool) : Nat := (m.filter id).length

/-- Global indices of the currently valid cells (`np.where(~is_invalid)[0]`). -/
def validIdx (m : List Bool) : List Nat :=
  (List.range m.length).filter fun j => !(maskAt m j)

/-- Global indices of the currently invalid cells (`np.where(filter)[0]`). -/
def trueIdx (m : List Bool) : List Nat :=
  (List.range m.length).filter fun j => maskAt m j

/-- Row selection by the negated mask (`matrix.tocsr()[~is_invalid, :]`). -/
def validRows (mat : Mat) (m : List Bool) : Mat :=
  (validIdx m).map fun j => mat.getD j []

/-- Row selection by the mask itself (`data_matrix[boolean_filter]`). -/
def trueRows (mat : Mat) (m : List Bool) : Mat :=
  (trueIdx m).map fun j => mat.getD j []

/-- Global indices selected when a boolean vector `fs` over the valid cells is
used to index `np.where(~is_invalid)[0]`, i.e. the global positions of the
failing valid cells. -/
def marksOf (xs : List Nat) (fs : List Bool) : List Nat :=
  (xs.zip fs).filterMap fun q => if q.2 then some q.1 else none

/-- The marking idiom `is_invalid[np.where(~is_invalid)[0][failing]] = True`
applied to a copy of the mask: set the global positions of the failing valid
cells to `true`, leave everything else unchanged. -/
def markValid (m fs : List Bool) : List Bool :=
  (List.range m.length).map fun j => maskAt m j || (marksOf (validIdx m) fs).contains j

/-- The marking idiom `is_invalid[flags] = True` of `low_count`, where `flags`
is a boolean vector that may be shorter than the mask (it ranges over the
valid cells only).  Under the NumPy semantics the source runs with, the
boolean vector indexes the first `flags.length` positions of the mask. -/
def setTrueAt (m fs : List Bool) : List Bool :=
  (List.range m.length).map fun j => maskAt m j || fs.getD j false

/-- Insert a value into a descending-sorted list, keeping it sorted. -/
def insertDesc (x : Nat) : List Nat → List Nat
  | [] => [x]
  | y :: ys => if y < x then x :: y :: ys else y :: insertDesc x ys

/-- Cell sums sorted in descending order (`ms[np.argsort(ms)[::-1]]`).  Only
the values matter downstream, and the descending multiset ordering of natural
numbers is unique as a list. -/
def sortDesc (xs : List Nat) : List Nat := xs.foldr insertDesc []

/-- Cumulative sums (`np.cumsum`). -/
def cumsum (xs : List ℚ) : List ℚ :=
  (List.range xs.length).map fun i => (xs.take (i + 1)).sum

/-- The composite `pd.Series(xs).rolling(10).mean()[10:]`: the moving average
with window 10, restricted to the fully-populated windows at indices
`10, …, xs.length - 1`.  The entry for index `k + 10` averages
`xs[k+1 .. k+10]`. -/
def roll10after (xs : List ℚ) : List ℚ :=
  (List.range (xs.length - 10)).map fun k => ((xs.drop (k + 1)).take 10).sum / 10

/-- First differences (`np.diff`). -/
def diffQ (xs : List ℚ) : List ℚ := List.zipWith (fun a b => b - a) xs xs.tail

/-- Index of the first zero entry (`np.min(np.where(np.abs(d2) == 0)[0])`);
`none` models the empty-`where` case whose `np.min` raises the `ValueError`
that the source turns into a warning and a pass-through. -/
def firstIdxZero : List ℚ → Option Nat
  | [] => none
  | x :: xs => if x = 0 then some 0 else (firstIdxZero xs).map (· + 1)

/-- Result of one filter stage: the output mask, whether the returned mask is
a fresh copy of the input (the source executed `.copy()`) rather than the
input array itself, and whether the stage emitted its pass-through warning. -/
structure StageResult where
  mask : List Bool
  isCopy : Bool
  warned : Bool
  deriving DecidableEq

/-- Per valid cell, the total molecule count
(`np.ravel(molecules.tocsr()[~is_invalid, :].sum(axis=1))`). -/
def lowCountMs (mol : Mat) (m : List Bool) : List Nat :=
  (validRows mol m).map List.sum

/-- The smoothed second difference `d2` of the normalised cumulative curve of
the descending-sorted cell sums.  When the valid cells sum to zero the float
source normalises by zero and every entry of `d2` is NaN, so no entry tests
equal to zero; the embedding returns the empty list, which triggers the same
pass-through. -/
def lowCountD2 (ms : List Nat) : List ℚ :=
  let total : ℚ := (ms.map fun (n : Nat) => (n : ℚ)).sum
  if total = 0 then []
  else
    diffQ (roll10after (diffQ (roll10after
      (cumsum ((sortDesc ms).map fun (x : Nat) => (x : ℚ) / total)))))

/-- The buffered inflection rank: the first index where `d2` is zero, scaled
by `0.9` and truncated (`int(inflection_pt * .9)`). -/
def lowCountInflect (ms : List Nat) : Option Nat :=
  (firstIdxZero (lowCountD2 ms)).map fun ip => ip * 9 / 10

/-- The count threshold `vcrit = ms[idx][inflection_pt]`: the sorted count
value at the buffered inflection rank, when an inflection point exists. -/
def lowCountThreshold (ms : List Nat) : Option Nat :=
  (lowCountInflect ms).map fun ip => (sortDesc ms).getD ip 0

/-- The low-count filter stage (`filter.low_count`). -/
def low_count (molecules : Mat) (is_invalid : List Bool) : StageResult :=
  let ms := lowCountMs molecules is_invalid
  match lowCountThreshold ms with
  | none => ⟨is_invalid, false, true⟩
  | some vcrit => ⟨setTrueAt is_invalid (ms.map fun s => decide (s < vcrit)), true, false⟩

/-- Fitted outputs of the external statistical estimators (sklearn `GMM` and
`LinearRegression`), treated as pluggable primitives: `bic1`/`bic2` are the
BIC scores of the one- and two-component mixtures fitted to the
reads-per-molecule column, `lowAssign` tells for each valid cell whether the
refitted two-component model assigns it to the component with the smaller
mean (`res == np.argmin(gmm2.means_)`), and `lgaResiduals` gives the
regression residuals `yhat - y` of the gene-detection fit. -/
structure StatModel where
  bic1 : List ℚ → ℚ
  bic2 : List ℚ → ℚ
  lowAssign : List ℚ → List Bool
  lgaResiduals : List Nat → List Nat → List ℚ

/-- Per valid cell, reads-per-molecule ratio (`rs / ms`). -/
def covRatio (mol reads : Mat) (m : List Bool) : List ℚ :=
  List.zipWith (fun (r s : Nat) => (r : ℚ) / (s : ℚ))
    ((validRows reads m).map List.sum) ((validRows mol m).map List.sum)

/-- The acceptance test of the two-component fit:
`gmm2.bic(col_ratio) / gmm1.bic(col_ratio) < 0.95`. -/
def covAccepts (S : StatModel) (ratio : List ℚ) : Bool :=
  decide (S.bic2 ratio / S.bic1 ratio < 19 / 20)

/-- The low-coverage filter stage (`filter.low_coverage`). -/
def low_coverage (S : StatModel) (molecules reads : Mat) (is_invalid : List Bool) :
    StageResult :=
  let ms := (validRows molecules is_invalid).map List.sum
  let rs := (validRows reads is_invalid).map List.sum
  if ms.length < 10 ∨ rs.length < 10 then ⟨is_invalid, false, true⟩
  else if covAccepts S (covRatio molecules reads is_invalid) then
    ⟨markValid is_invalid (S.lowAssign (covRatio molecules reads is_invalid)), true, false⟩
  else ⟨is_invalid, false, false⟩

/-- Which genes are mitochondrial: identifier starts with `MT-`
(`map(lambda x: x.startswith('MT-'), gene_ids)`). -/
def mtFlags (gene_ids : List String) : List Bool :=
  gene_ids.map fun g => g.startsWith "MT-"

/-- Sum of the mitochondrial-gene entries of one row
(the row sum after the column selection `[:, mt_genes]`). -/
def mtRowSum (row : List Nat) (flags : List Bool) : Nat :=
  (((row.zip flags).filter fun p => p.2).map Prod.fst).sum

/-- Mitochondrial fraction of one cell: mitochondrial molecules over total
molecules. -/
def mtFraction (row : List Nat) (gene_ids : List String) : ℚ :=
  (mtRowSum row (mtFlags gene_ids) : ℚ) / (row.sum : ℚ)

/-- Per valid cell, the test `ratios > max_mt_content`.  A cell with zero
total molecules has ratio NaN in the float source (its mitochondrial count is
also zero) and NaN compares false, so such a cell never fails. -/
def mtFailing (rows : Mat) (flags : List Bool) (t : ℚ) : List Bool :=
  List.zipWith (fun (mt s : Nat) => if s = 0 then false else decide ((mt : ℚ) / (s : ℚ) > t))
    (rows.map fun r => mtRowSum r flags) (rows.map List.sum)

/-- The high-mitochondrial-RNA filter stage (`filter.high_mitochondrial_rna`). -/
def high_mitochondrial_rna (molecules : Mat) (gene_ids : List String)
    (is_invalid : List Bool) (max_mt_content : ℚ) : StageResult :=
  ⟨markValid is_invalid
    (mtFailing (validRows molecules is_invalid) (mtFlags gene_ids) max_mt_content),
   true, false⟩

/-- The low-gene-abundance filter stage (`filter.low_gene_abundance`).  The
log10 transforms and the fitted regression line are external real-valued
primitives; the residuals `yhat - y` they produce are supplied by the
`StatModel`, and the comparison `residuals > .15` of the source is embedded
here.  The guard `if not (x.shape[0] or y.shape[0])` passes the input mask
through (without a warning) when there are no valid cells. -/
def low_gene_abundance (S : StatModel) (molecules : Mat) (is_invalid : List Bool) :
    StageResult :=
  let rows := validRows molecules is_invalid
  let ms := rows.map List.sum
  let genes := rows.map fun r => (r.filter fun x => x != 0).length
  if ms.length = 0 then ⟨is_invalid, false, false⟩
  else ⟨markValid is_invalid ((S.lgaResiduals ms genes).map fun res => decide (res > 3 / 20)),
        true, false⟩

/-- A Python numeric value as passed for `max_mt_content`; the source checks
`isinstance(max_mt_content, float)` and rejects non-floats. -/
inductive PyNum where
  | float (q : ℚ)
  | int (n : ℤ)
  deriving DecidableEq

/-- Errors raised by `create_filtered_dense_count_matrix`:
`EmptyMatrixError`, `TypeError`, `ValueError`. -/
inductive PipeError where
  | emptyMatrix
  | typeError
  | valueError
  deriving DecidableEq

/-- Sum of all entries of a matrix (`matrix.sum().sum()`). -/
def matSum (mat : Mat) : Nat := (mat.map List.sum).sum

/-- The orchestrator's `additional_loss`: incremental cells lost
(`np.sum(new_filter) - np.sum(old_filter)`) and incremental molecules lost
(`data[new_filter].sum().sum() - data[old_filter].sum().sum()`). -/
def additional_loss (new_filter old_filter : List Bool) (data_matrix : Mat) : ℤ × ℤ :=
  ((countTrue new_filter : ℤ) - (countTrue old_filter : ℤ),
   (matSum (trueRows data_matrix new_filter) : ℤ)
     - (matSum (trueRows data_matrix old_filter) : ℤ))

/-- Select the entries of a row at the positions where `keep` is true
(a boolean column selection). -/
def selectCols {α : Type} (row : List α) (keep : List Bool) : List α :=
  ((row.zip keep).filter fun p => p.2).map Prod.fst

/-- The value returned by a successful `create_filtered_dense_count_matrix`
run: the dense filtered table (surviving rows, all-zero gene columns
dropped), its row positions and column identifiers, the total molecule count
before filtering, and the two loss ledgers in execution order.  `finalMask`
is the mask after the last stage, from which the dense table is cut; the
summary statistics (`describe()`) are a pandas rendering of the dense table
and are not modelled. -/
structure PipeResult where
  dense : Mat
  denseIndex : List Nat
  denseColumns : List String
  total_molecules : Nat
  molecules_lost : List (String × ℤ)
  cells_lost : List (String × ℤ)
  finalMask : List Bool
  deriving DecidableEq

/-- The body of the orchestrator after its precondition checks: the four
stages in fixed order, the incremental-loss ledgers, and the dense cut. -/
def pipelineRun (S : StatModel) (molecules reads : Mat) (gene_ids : List String)
    (max_mt_content : ℚ) (filter_mitochondrial_rna : Bool) : PipeResult :=
  let is_invalid := List.replicate molecules.length false
  let count_invalid := (low_count molecules is_invalid).mask
  let cov_invalid := (low_coverage S molecules reads count_invalid).mask
  let mt_invalid :=
    if filter_mitochondrial_rna then
      (high_mitochondrial_rna molecules gene_ids cov_invalid max_mt_content).mask
    else cov_invalid
  let gene_invalid := (low_gene_abundance S molecules mt_invalid).mask
  let cells_lost :=
    [("low_count", (additional_loss count_invalid is_invalid molecules).1),
     ("low_coverage", (additional_loss cov_invalid count_invalid molecules).1)] ++
    (if filter_mitochondrial_rna then
       [("high_mt", (additional_loss mt_invalid cov_invalid molecules).1)]
     else []) ++
    [("low_gene_detection", (additional_loss gene_invalid mt_invalid molecules).1)]
  let molecules_lost :=
    [("low_count", (additional_loss count_invalid is_invalid molecules).2),
     ("low_coverage", (additional_loss cov_invalid count_invalid molecules).2)] ++
    (if filter_mitochondrial_rna then
       [("high_mt", (additional_loss mt_invalid cov_invalid molecules).2)]
     else []) ++
    [("low_gene_detection", (additional_loss gene_invalid mt_invalid molecules).2)]
  let denseRows := validRows molecules gene_invalid
  let keep := (List.range gene_ids.length).map
    fun j => decide ((denseRows.map fun r => r.getD j 0).sum ≠ 0)
  { dense := denseRows.map fun r => selectCols r keep
    denseIndex := validIdx gene_invalid
    denseColumns := selectCols gene_ids keep
    total_molecules := matSum molecules
    molecules_lost := molecules_lost
    cells_lost := cells_lost
    finalMask := gene_invalid }

/-- The pipeline orchestrator (`filter.create_filtered_dense_count_matrix`):
the empty-matrix check, then the `max_mt_content` type and range checks, then
the staged run.  The checks run in source order, so an empty matrix reports
`EmptyMatrixError` even when the parameter is also bad. -/
def create_filtered_dense_count_matrix (S : StatModel) (molecules reads : Mat)
    (gene_ids : List String) (max_mt_content : PyNum)
    (filter_mitochondrial_rna : Bool) : Except PipeError PipeResult :=
  if matSum molecules = 0 then .error .emptyMatrix
  else
    match max_mt_content with
    | .int _ => .error .typeError
    | .float q =>
      if 0 ≤ q ∧ q ≤ 1 then
        .ok (pipelineRun S molecules reads gene_ids q filter_mitochondrial_rna)
      else .error .valueError

/-- Decidable equality of orchestrator results, used to evaluate the
embedding at concrete inputs. -/
instance : DecidableEq (Except PipeError PipeResult) := fun a b =>
  match a, b with
  | .ok x, .ok y =>
    if h : x = y then .isTrue (by rw [h]) else .isFalse (by simp [h])
  | .error e, .error f =>
    if h : e = f then .isTrue (by rw [h]) else .isFalse (by simp [h])
  | .ok _, .error _ => .isFalse (by simp)
  | .error _, .ok _ => .isFalse (by simp)

/-! Concrete fixtures used by witnesses and counterexamples. -/

/-- A statistical-model instance under which the two-component fit is not
accepted (equal BIC scores) and no regression residual is large. -/
def S0 : StatModel := ⟨fun _ => 1, fun _ => 1, fun _ => [], fun _ _ => []⟩

/-- A statistical-model instance under which the two-component fit is
accepted (`bic2 = 0 < 0.95 * bic1`) and exactly the first valid cell is
assigned to the smaller-mean component. -/
def S2 : StatModel := ⟨fun _ => 1, fun _ => 0, fun _ => [true], fun _ _ => []⟩

/-- Twenty-three cells with two molecules each plus one cell with one
molecule: large enough for the inflection search, with a flat cumulative
curve whose second difference vanishes at rank zero. -/
def M24 : Mat := List.replicate 23 [2] ++ [[1]]

/-- The all-false mask over 24 cells. -/
def mask24 : List Bool := List.replicate 24 false

/-- Twenty-three cells with strictly decreasing molecule counts 23, …, 1:
the cumulative curve is strictly convex, so the smoothed second difference
never hits exact zero. -/
def M23d : Mat := (List.range 23).map fun i => [23 - i]

/-- The all-false mask over 23 cells. -/
def mask23 : List Bool := List.replicate 23 false

/-- Three cells over one gene, one molecule each. -/
def M3 : Mat := [[1], [1], [1]]

/-- The all-false mask over 3 cells. -/
def mask3 : List Bool := List.replicate 3 false

/-- A one-cell matrix whose single entry is zero. -/
def Z1 : Mat := [[0]]

/-- Three cells over a mitochondrial and an ordinary gene: mitochondrial
fractions 1/5, 1/4 and 1/5. -/
def Mmt : Mat := [[1, 4], [1, 3], [2, 8]]

/-- Gene identifiers with one mitochondrial name. -/
def gidsMT : List String := ["MT-X", "Y"]

/-- Eleven cells over one gene, one molecule each. -/
def M11 : Mat := List.replicate 11 [1]

/-- A mask over 11 cells whose first cell is already invalid, leaving ten
valid cells. -/
def mask11 : List Bool := true :: List.replicate 10 false

/-! Helper lemmas about the mask and marking combinators. -/

theorem maskAt_eq_false_of_le {m : List Bool} {j : Nat} (h : m.length ≤ j) :
    maskAt m j = false := by
  unfold maskAt
  rw [List.getD_eq_getElem?_getD, List.getElem?_eq_none h]
  rfl

theorem lt_length_of_maskAt_true {m : List Bool} {j : Nat} (h : maskAt m j = true) :
    j < m.length := by
  by_contra hle
  rw [maskAt_eq_false_of_le (Nat.le_of_not_lt hle)] at h
  exact Bool.false_ne_true h

theorem rangeMap_getD {α : Type} (g : Nat → α) (n j : Nat) (d : α) :
    ((List.range n).map g).getD j d = if j < n then g j else d := by
  rw [List.getD_eq_getElem?_getD, List.getElem?_map]
  by_cases hj : j < n
  · rw [List.getElem?_range hj]
    simp [hj]
  · rw [List.getElem?_eq_none (by simpa using Nat.le_of_not_lt hj)]
    simp [hj]

theorem maskAt_setTrueAt (m fs : List Bool) (j : Nat) :
    maskAt (setTrueAt m fs) j =
      if j < m.length then maskAt m j || fs.getD j false else false := by
  unfold setTrueAt
  show ((List.range m.length).map _).getD j false = _
  rw [rangeMap_getD]

theorem maskAt_markValid (m fs : List Bool) (j : Nat) :
    maskAt (markValid m fs) j =
      if j < m.length then maskAt m j || (marksOf (validIdx m) fs).contains j
      else false := by
  unfold markValid
  show ((List.range m.length).map _).getD j false = _
  rw [rangeMap_getD]

theorem mem_validIdx {m : List Bool} {p : Nat} :
    p ∈ validIdx m ↔ p < m.length ∧ maskAt m p = false := by
  unfold validIdx
  rw [List.mem_filter, List.mem_range]
  simp [Bool.not_eq_true']

theorem validIdx_nodup (m : List Bool) : (validIdx m).Nodup :=
  (List.nodup_range m.length).filter _

theorem marksOf_cons_false (x : Nat) (xs : List Nat) (fs : List Bool) :
    marksOf (x :: xs) (false :: fs) = marksOf xs fs := rfl

theorem marksOf_cons_true (x : Nat) (xs : List Nat) (fs : List Bool) :
    marksOf (x :: xs) (true :: fs) = x :: marksOf xs fs := rfl

theorem mem_marksOf {xs : List Nat} {fs : List Bool} {p : Nat} :
    p ∈ marksOf xs fs ↔ ∃ k : Nat, xs[k]? = some p ∧ fs[k]? = some true := by
  induction xs generalizing fs with
  | nil => simp [marksOf]
  | cons x xs ih =>
    cases fs with
    | nil => simp [marksOf]
    | cons f fs =>
      cases f with
      | false =>
        rw [marksOf_cons_false, ih]
        constructor
        · rintro ⟨k, hk1, hk2⟩
          exact ⟨k + 1, by simpa using hk1, by simpa using hk2⟩
        · rintro ⟨k, hk1, hk2⟩
          cases k with
          | zero => simp at hk2
          | succ k => exact ⟨k, by simpa using hk1, by simpa using hk2⟩
      | true =>
        rw [marksOf_cons_true, List.mem_cons, ih]
        constructor
        · rintro (rfl | ⟨k, hk1, hk2⟩)
          · exact ⟨0, by simp, by simp⟩
          · exact ⟨k + 1, by simpa using hk1, by simpa using hk2⟩
        · rintro ⟨k, hk1, hk2⟩
          cases k with
          | zero =>
            left
            simpa using hk1.symm
          | succ k => exact Or.inr ⟨k, by simpa using hk1, by simpa using hk2⟩

theorem mem_of_mem_marksOf {xs : List Nat} {fs : List Bool} {p : Nat}
    (h : p ∈ marksOf xs fs) : p ∈ xs := by
  obtain ⟨k, hk1, _⟩ := mem_marksOf.mp h
  exact List.getElem?_mem hk1

theorem getD_false_eq_some_true {fs : List Bool} {k : Nat} :
    fs.getD k false = true ↔ fs[k]? = some true := by
  rw [List.getD_eq_getElem?_getD]
  cases h : fs[k]? with
  | none => simp
  | some b => simp

theorem contains_marksOf_validIdx {m fs : List Bool} {k p : Nat}
    (hk : (validIdx m)[k]? = some p) :
    (marksOf (validIdx m) fs).contains p = fs.getD k false := by
  rw [Bool.eq_iff_iff]
  constructor
  · intro hc
    obtain ⟨k', hk1, hk2⟩ := mem_marksOf.mp (List.elem_iff.mp hc)
    have hk'lt : k' < (validIdx m).length := by
      by_contra hge
      rw [List.getElem?_eq_none (Nat.le_of_not_lt hge)] at hk1
      exact Option.noConfusion hk1
    have hkk : k' = k := List.getElem?_inj hk'lt (validIdx_nodup m) (hk1.trans hk.symm)
    subst hkk
    exact getD_false_eq_some_true.mpr hk2
  · intro hd
    exact List.elem_iff.mpr (mem_marksOf.mpr ⟨k, hk, getD_false_eq_some_true.mp hd⟩)

theorem maskAt_markValid_valid {m fs : List Bool} {k p : Nat}
    (hk : (validIdx m)[k]? = some p) :
    maskAt (markValid m fs) p = fs.getD k false := by
  have hp : p ∈ validIdx m := List.getElem?_mem hk
  obtain ⟨hlt, hfalse⟩ := mem_validIdx.mp hp
  rw [maskAt_markValid, if_pos hlt, hfalse, Bool.false_or,
    contains_marksOf_validIdx hk]

theorem maskAt_markValid_invalid {m fs : List Bool} {p : Nat}
    (hp : p ∉ validIdx m) :
    maskAt (markValid m fs) p = maskAt m p := by
  by_cases hlt : p < m.length
  · rw [maskAt_markValid, if_pos hlt]
    cases hc : (marksOf (validIdx m) fs).contains p with
    | false => simp
    | true =>
      exact absurd (mem_of_mem_marksOf (List.elem_iff.mp hc)) hp
  · rw [maskAt_markValid, if_neg hlt,
      maskAt_eq_false_of_le (Nat.le_of_not_lt hlt)]

/-! Length lemmas for the smoothed-second-difference chain. -/

theorem length_cumsum (xs : List ℚ) : (cumsum xs).length = xs.length := by
  unfold cumsum
  rw [List.length_map, List.length_range]

theorem length_roll10after (xs : List ℚ) : (roll10after xs).length = xs.length - 10 := by
  unfold roll10after
  rw [List.length_map, List.length_range]

theorem length_diffQ (xs : List ℚ) : (diffQ xs).length = xs.length - 1 := by
  unfold diffQ
  rw [List.length_zipWith, List.length_tail]
  omega

theorem length_insertDesc (x : Nat) (l : List Nat) :
    (insertDesc x l).length = l.length + 1 := by
  induction l with
  | nil => rfl
  | cons y ys ih =>
    unfold insertDesc
    split
    · simp
    · simp [ih]

theorem length_sortDesc (l : List Nat) : (sortDesc l).length = l.length := by
  induction l with
  | nil => rfl
  | cons x xs ih =>
    show (insertDesc x (sortDesc xs)).length = xs.length + 1
    rw [length_insertDesc, ih]

theorem firstIdxZero_eq_none {l : List ℚ} (h : ∀ x ∈ l, x ≠ 0) :
    firstIdxZero l = none := by
  induction l with
  | nil => rfl
  | cons x xs ih =>
    unfold firstIdxZero
    rw [if_neg (h x (List.mem_cons_self x xs)),
      ih fun y hy => h y (List.mem_cons_of_mem x hy)]
    rfl

theorem length_lowCountMs (mol : Mat) (m : List Bool) :
    (lowCountMs mol m).length = (validIdx m).length := by
  unfold lowCountMs validRows
  rw [List.length_map, List.length_map]

/-! Pass-through characterisations of the low-count stage. -/

theorem low_count_eq_passthrough {mol : Mat} {m : List Bool}
    (h : lowCountThreshold (lowCountMs mol m) = none) :
    low_count mol m = ⟨m, false, true⟩ := by
  simp only [low_count, h]

theorem lowCountThreshold_eq_none_of_small {ms : List Nat} (h : ms.length ≤ 22) :
    lowCountThreshold ms = none := by
  have hd2 : lowCountD2 ms = [] := by
    simp only [lowCountD2]
    split
    · rfl
    · apply List.eq_nil_of_length_eq_zero
      rw [length_diffQ, length_roll10after, length_diffQ, length_roll10after,
        length_cumsum, List.length_map, length_sortDesc]
      omega
  unfold lowCountThreshold lowCountInflect
  rw [hd2]
  rfl

/-! Branch-structure lemmas for the four stages. -/

theorem maskAt_setTrueAt_true {m fs : List Bool} {j : Nat} (hj : maskAt m j = true) :
    maskAt (setTrueAt m fs) j = true := by
  rw [maskAt_setTrueAt, if_pos (lt_length_of_maskAt_true hj), hj, Bool.true_or]

theorem maskAt_markValid_true {m fs : List Bool} {j : Nat} (hj : maskAt m j = true) :
    maskAt (markValid m fs) j = true := by
  rw [maskAt_markValid, if_pos (lt_length_of_maskAt_true hj), hj, Bool.true_or]

theorem low_count_mask_cases (mol : Mat) (m : List Bool) :
    (low_count mol m).mask = m ∨ ∃ fs, (low_count mol m).mask = setTrueAt m fs := by
  simp only [low_count]
  cases lowCountThreshold (lowCountMs mol m) with
  | none => exact Or.inl rfl
  | some v => exact Or.inr ⟨_, rfl⟩

theorem low_coverage_mask_cases (S : StatModel) (mol reads : Mat) (m : List Bool) :
    (low_coverage S mol reads m).mask = m ∨
      ∃ fs, (low_coverage S mol reads m).mask = markValid m fs := by
  simp only [low_coverage]
  split
  · exact Or.inl rfl
  · split
    · exact Or.inr ⟨_, rfl⟩
    · exact Or.inl rfl

theorem high_mitochondrial_rna_mask_eq (mol : Mat) (gids : List String)
    (m : List Bool) (t : ℚ) :
    (high_mitochondrial_rna mol gids m t).mask
      = markValid m (mtFailing (validRows mol m) (mtFlags gids) t) := rfl

theorem low_gene_abundance_mask_cases (S : StatModel) (mol : Mat) (m : List Bool) :
    (low_gene_abundance S mol m).mask = m ∨
      ∃ fs, (low_gene_abundance S mol m).mask = markValid m fs := by
  simp only [low_gene_abundance]
  split
  · exact Or.inl rfl
  · exact Or.inr ⟨_, rfl⟩

/-- C1: for every input matrix and mask, each of the four filter stages
returns a mask whose set of true (excluded) positions contains the input
mask's true positions: no stage ever changes a true entry back to false. -/
theorem C1_mask_monotone (S : StatModel) (mol reads : Mat) (gids : List String)
    (m : List Bool) (t : ℚ) (j : Nat) (hj : maskAt m j = true) :
    maskAt (low_count mol m).mask j = true ∧
    maskAt (low_coverage S mol reads m).mask j = true ∧
    maskAt (high_mitochondrial_rna mol gids m t).mask j = true ∧
    maskAt (low_gene_abundance S mol m).mask j = true := by
  refine ⟨?_, ?_, ?_, ?_⟩
  · rcases low_count_mask_cases mol m with hc | ⟨fs, hc⟩
    · rw [hc]; exact hj
    · rw [hc]; exact maskAt_setTrueAt_true hj
  · rcases low_coverage_mask_cases S mol reads m with hc | ⟨fs, hc⟩
    · rw [hc]; exact hj
    · rw [hc]; exact maskAt_markValid_true hj
  · rw [high_mitochondrial_rna_mask_eq]
    exact maskAt_markValid_true hj
  · rcases low_gene_abundance_mask_cases S mol m with hc | ⟨fs, hc⟩
    · rw [hc]; exact hj
    · rw [hc]; exact maskAt_markValid_true hj

/-- C1 witness: concrete instantiation at a one-cell matrix whose single
cell is already excluded; each stage keeps it excluded. -/
theorem C1_mask_monotone_witness :
    maskAt (low_count [[1]] [true]).mask 0 = true ∧
    maskAt (low_coverage S0 [[1]] [[1]] [true]).mask 0 = true ∧
    maskAt (high_mitochondrial_rna [[1]] ["A"] [true] (1 / 5)).mask 0 = true ∧
    maskAt (low_gene_abundance S0 [[1]] [true]).mask 0 = true :=
  C1_mask_monotone S0 [[1]] [[1]] ["A"] [true] (1 / 5) 0 (by decide)

/-- C7: on every input with fewer than 20 valid cells, `low_count` returns
the input mask unchanged (a pass-through, `warned = true` recording the
emitted warning) instead of failing. -/
theorem C7_low_count_small_passthrough (mol : Mat) (m : List Bool)
    (h : (validIdx m).length < 20) :
    low_count mol m = ⟨m, false, true⟩ := by
  apply low_count_eq_passthrough
  apply lowCountThreshold_eq_none_of_small
  rw [length_lowCountMs]
  omega

/-- C7 witness: a single valid cell is fewer than 20; the stage passes the
mask through with the warning. -/
theorem C7_low_count_small_passthrough_witness :
    (validIdx [false]).length < 20 ∧ low_count [[1]] [false] = ⟨[false], false, true⟩ :=
  ⟨by decide, C7_low_count_small_passthrough [[1]] [false] (by decide)⟩

/-- C10: whenever the smoothed second difference of the cumulative curve
contains no entry that is exactly zero, `low_count` returns the input mask
unchanged with the warning, with no constraint on the number of valid
cells. -/
theorem C10_low_count_nozero_passthrough (mol : Mat) (m : List Bool)
    (h : ∀ x ∈ lowCountD2 (lowCountMs mol m), x ≠ 0) :
    low_count mol m = ⟨m, false, true⟩ := by
  apply low_count_eq_passthrough
  unfold lowCountThreshold lowCountInflect
  rw [firstIdxZero_eq_none h]
  rfl

/-- C10 witness: twenty-three valid cells (enough for the inflection
search) with strictly decreasing counts; the second difference is the
singleton [-1/276], never zero, and the stage passes through. -/
theorem C10_low_count_nozero_passthrough_witness :
    (∀ x ∈ lowCountD2 (lowCountMs M23d mask23), x ≠ 0) ∧
    low_count M23d mask23 = ⟨mask23, false, true⟩ :=
  ⟨by with_unfolding_all decide,
   C10_low_count_nozero_passthrough M23d mask23 (by with_unfolding_all decide)⟩

/-! Lemmas about the all-false initial mask. -/

theorem maskAt_replicate_false (n j : Nat) :
    maskAt (List.replicate n false) j = false := by
  by_cases hj : j < n
  · unfold maskAt
    rw [List.getD_eq_getElem?_getD, List.getElem?_replicate]
    simp [hj]
  · exact maskAt_eq_false_of_le (by simpa using Nat.le_of_not_lt hj)

theorem validIdx_replicate_false (n : Nat) :
    validIdx (List.replicate n false) = List.range n := by
  unfold validIdx
  rw [List.length_replicate]
  apply List.filter_eq_self.mpr
  intro j hj
  rw [maskAt_replicate_false]
  rfl

/-- C9 amended: a stage returns either the untouched input mask itself (on
its pass-through branches) or a freshly copied mask; in particular a stage
never returns a modified alias of its input, and (the embedding being a
function on values) the input mask's entries are never mutated. -/
theorem C9_alias_only_when_unchanged (S : StatModel) (mol reads : Mat)
    (gids : List String) (m : List Bool) (t : ℚ) :
    ((low_count mol m).isCopy = false → (low_count mol m).mask = m) ∧
    ((low_coverage S mol reads m).isCopy = false →
       (low_coverage S mol reads m).mask = m) ∧
    ((high_mitochondrial_rna mol gids m t).isCopy = false →
       (high_mitochondrial_rna mol gids m t).mask = m) ∧
    ((low_gene_abundance S mol m).isCopy = false →
       (low_gene_abundance S mol m).mask = m) := by
  refine ⟨?_, ?_, ?_, ?_⟩
  · simp only [low_count]
    cases lowCountThreshold (lowCountMs mol m) with
    | none => intro _; rfl
    | some v => intro h; exact absurd h (by simp)
  · simp only [low_coverage]
    split
    · intro _; rfl
    · split
      · intro h; exact absurd h (by simp)
      · intro _; rfl
  · intro h
    exact absurd h (by simp [high_mitochondrial_rna])
  · simp only [low_gene_abundance]
    split
    · intro _; rfl
    · intro h; exact absurd h (by simp)

/-- C9 counterexample: with three valid cells the low-coverage stage takes
its pass-through branch and returns the input mask object itself
(`isCopy = false`), not a fresh copy, contradicting the claim that no stage
ever returns its input mask as its output. -/
theorem C9_counterexample : low_coverage S0 M3 M3 mask3 = ⟨mask3, false, true⟩ := by
  decide

/-- C9 witness: concrete application of the amended statement at the
aliasing pass-through branch. -/
theorem C9_alias_only_when_unchanged_witness :
    (low_coverage S0 M3 M3 mask3).mask = mask3 :=
  (C9_alias_only_when_unchanged S0 M3 M3 ["A"] mask3 (1 / 5)).2.1 (by decide)

/-- C2: in `high_mitochondrial_rna`, a valid cell (the k-th valid cell,
sitting at global position p) is marked invalid if and only if its
mitochondrial fraction strictly exceeds `max_mt_content`. -/
theorem C2_high_mt_strict_threshold (mol : Mat) (gids : List String)
    (m : List Bool) (t : ℚ) (k p : Nat) (hk : (validIdx m)[k]? = some p)
    (hpos : 0 < (mol.getD p []).sum) :
    maskAt (high_mitochondrial_rna mol gids m t).mask p = true ↔
      mtFraction (mol.getD p []) gids > t := by
  rw [high_mitochondrial_rna_mask_eq, maskAt_markValid_valid hk]
  have hrow : (validRows mol m)[k]? = some (mol.getD p []) := by
    unfold validRows
    rw [List.getElem?_map, hk]
    rfl
  have hfail : (mtFailing (validRows mol m) (mtFlags gids) t)[k]? =
      some (if (mol.getD p []).sum = 0 then false
            else decide ((mtRowSum (mol.getD p []) (mtFlags gids) : ℚ)
              / ((mol.getD p []).sum : ℚ) > t)) := by
    unfold mtFailing
    rw [List.getElem?_zipWith, List.getElem?_map, List.getElem?_map, hrow]
    rfl
  rw [getD_false_eq_some_true, hfail, if_neg (Nat.pos_iff_ne_zero.mp hpos)]
  unfold mtFraction
  simp

/-- C2 witness: with threshold 1/5, the cell with fraction 1/4 is marked
invalid and the cell with fraction exactly 1/5 is not. -/
theorem C2_high_mt_strict_threshold_witness :
    maskAt (high_mitochondrial_rna Mmt gidsMT mask3 (1 / 5)).mask 1 = true ∧
    maskAt (high_mitochondrial_rna Mmt gidsMT mask3 (1 / 5)).mask 0 = false := by
  constructor
  · exact (C2_high_mt_strict_threshold Mmt gidsMT mask3 (1 / 5) 1 1 (by decide)
      (by decide)).mpr (by with_unfolding_all decide)
  · have h := C2_high_mt_strict_threshold Mmt gidsMT mask3 (1 / 5) 0 0 (by decide)
      (by decide)
    cases hc : maskAt (high_mitochondrial_rna Mmt gidsMT mask3 (1 / 5)).mask 0 with
    | false => rfl
    | true => exact absurd (h.mp hc) (by with_unfolding_all decide)

/-- C3 counterexample: on twenty-four cells (twenty-three with two molecules,
one with one molecule) and the all-false mask, the buffered inflection rank
is determined and the count threshold is 2; cell 0 is valid with total
exactly equal to the threshold, yet it is not marked invalid — the source
compares with strict `<`, so "at or below" fails at equality. -/
theorem C3_counterexample :
    lowCountThreshold (lowCountMs M24 mask24) = some 2 ∧
    (M24.getD 0 []).sum = 2 ∧
    maskAt mask24 0 = false ∧
    maskAt (low_count M24 mask24).mask 0 = false := by
  with_unfolding_all decide

/-- C3 amended: after the buffered inflection rank is determined, on the
pipeline's all-false input mask a cell is marked invalid exactly when its
total molecule count is strictly below the count threshold; a cell whose
total equals the threshold stays valid. -/
theorem C3_low_count_strict_threshold (mol : Mat) (v : Nat) (i : Nat)
    (h : lowCountThreshold (lowCountMs mol (List.replicate mol.length false)) = some v)
    (hi : i < mol.length) :
    maskAt (low_count mol (List.replicate mol.length false)).mask i
      = decide ((mol.getD i []).sum < v) := by
  simp only [low_count, h]
  rw [maskAt_setTrueAt, List.length_replicate, if_pos hi, maskAt_replicate_false,
    Bool.false_or]
  unfold lowCountMs validRows
  rw [validIdx_replicate_false, List.map_map, List.map_map, rangeMap_getD]
  simp [hi, Function.comp]

/-- C3 witness: on the same twenty-four-cell input, the cell with total 1
(strictly below the threshold 2) is marked invalid, as the amended claim
states. -/
theorem C3_low_count_strict_threshold_witness :
    lowCountThreshold (lowCountMs M24 (List.replicate M24.length false)) = some 2 ∧
    maskAt (low_count M24 (List.replicate M24.length false)).mask 23
      = decide ((M24.getD 23 []).sum < 2) :=
  ⟨by with_unfolding_all decide,
   C3_low_count_strict_threshold M24 2 23 (by with_unfolding_all decide) (by decide)⟩

/-- C6: provided at least ten valid cells reach the low-coverage stage, no
cell is additionally excluded unless the two-component BIC over the
one-component BIC is below 0.95; when it is below, a valid cell is marked
exactly according to its assignment to the smaller-mean component, and
every position that is not a valid cell (already-excluded cells) keeps its
mask value. -/
theorem C6_low_coverage_bic_gate (S : StatModel) (mol reads : Mat)
    (m : List Bool)
    (hn : ¬ (((validRows mol m).map List.sum).length < 10 ∨
             ((validRows reads m).map List.sum).length < 10)) :
    (covAccepts S (covRatio mol reads m) = false →
       (low_coverage S mol reads m).mask = m) ∧
    (covAccepts S (covRatio mol reads m) = true →
       (∀ k p : Nat, (validIdx m)[k]? = some p →
          maskAt (low_coverage S mol reads m).mask p
            = (S.lowAssign (covRatio mol reads m)).getD k false) ∧
       (∀ p : Nat, p ∉ validIdx m →
          maskAt (low_coverage S mol reads m).mask p = maskAt m p)) := by
  constructor
  · intro hacc
    simp only [low_coverage, if_neg hn, hacc, Bool.false_eq_true, if_false]
  · intro hacc
    have hmask : (low_coverage S mol reads m).mask
        = markValid m (S.lowAssign (covRatio mol reads m)) := by
      simp only [low_coverage, if_neg hn, hacc, if_true]
    constructor
    · intro k p hk
      rw [hmask, maskAt_markValid_valid hk]
    · intro p hp
      rw [hmask, maskAt_markValid_invalid hp]

/-- C6 witness: eleven cells, one already invalid; under a model instance
whose two-component BIC is 0 (accepted) and whose smaller-mean component
holds exactly the first valid cell, that cell (global position 1) is marked,
the other valid cells are not, and the already-invalid cell keeps its
value. -/
theorem C6_low_coverage_bic_gate_witness :
    covAccepts S2 (covRatio M11 M11 mask11) = true ∧
    maskAt (low_coverage S2 M11 M11 mask11).mask 1 = true ∧
    maskAt (low_coverage S2 M11 M11 mask11).mask 2 = false ∧
    maskAt (low_coverage S2 M11 M11 mask11).mask 0 = maskAt mask11 0 := by
  have h := C6_low_coverage_bic_gate S2 M11 M11 mask11 (by decide)
  have hacc : covAccepts S2 (covRatio M11 M11 mask11) = true := by
    with_unfolding_all decide
  refine ⟨hacc, ?_, ?_, ?_⟩
  · rw [(h.2 hacc).1 0 1 (by decide)]
    rfl
  · rw [(h.2 hacc).1 1 2 (by decide)]
    rfl
  · exact (h.2 hacc).2 0 (by decide)

/-! Orchestrator ledger lemma and claims about
`create_filtered_dense_count_matrix`. -/

theorem pipelineRun_cells_lost_sum (S : StatModel) (mol reads : Mat)
    (gids : List String) (q : ℚ) (fm : Bool) :
    ((pipelineRun S mol reads gids q fm).cells_lost.map Prod.snd).sum
      = (countTrue (pipelineRun S mol reads gids q fm).finalMask : ℤ)
        - (countTrue (List.replicate mol.length false) : ℤ) := by
  simp only [pipelineRun, additional_loss]
  cases fm <;> simp

/-- C4: whenever the orchestrator returns successfully, the values of the
`cells_lost` ledger sum to the number of true entries of the final mask
minus the number of true entries of the initial all-false mask: the
per-stage incremental differences telescope across the fixed stage order,
with and without the optional mitochondrial stage. -/
theorem C4_cells_lost_ledger (S : StatModel) (mol reads : Mat)
    (gids : List String) (mt : PyNum) (fm : Bool) (r : PipeResult)
    (h : create_filtered_dense_count_matrix S mol reads gids mt fm = .ok r) :
    (r.cells_lost.map Prod.snd).sum
      = (countTrue r.finalMask : ℤ)
        - (countTrue (List.replicate mol.length false) : ℤ) := by
  unfold create_filtered_dense_count_matrix at h
  by_cases h0 : matSum mol = 0
  · rw [if_pos h0] at h
    exact absurd h (by simp)
  · rw [if_neg h0] at h
    cases mt with
    | int n => exact absurd h (by simp)
    | float qq =>
      have h2 : (if 0 ≤ qq ∧ qq ≤ 1 then
            Except.ok (pipelineRun S mol reads gids qq fm)
          else (Except.error PipeError.valueError : Except PipeError PipeResult))
          = .ok r := h
      by_cases hq : 0 ≤ qq ∧ qq ≤ 1
      · rw [if_pos hq] at h2
        injection h2 with h'
        subst h'
        exact pipelineRun_cells_lost_sum S mol reads gids qq fm
      · rw [if_neg hq] at h2
        exact absurd h2 (by simp)

/-- C4 witness: a concrete successful run on three one-molecule cells. -/
theorem C4_cells_lost_ledger_witness :
    (((pipelineRun S0 M3 M3 ["A"] (1 / 5) true).cells_lost.map Prod.snd).sum
      = (countTrue (pipelineRun S0 M3 M3 ["A"] (1 / 5) true).finalMask : ℤ)
        - (countTrue (List.replicate M3.length false) : ℤ)) :=
  C4_cells_lost_ledger S0 M3 M3 ["A"] (.float (1 / 5)) true
    (pipelineRun S0 M3 M3 ["A"] (1 / 5) true) (by with_unfolding_all decide)

/-- C5: the orchestrator reports the empty-matrix error exactly on matrices
whose entries sum to zero: an all-zero matrix fails with `EmptyMatrixError`
(before any stage output or ledger entry exists, the error carrying no
partial result), and a matrix with positive total never produces that
error. -/
theorem C5_empty_matrix_error (S : StatModel) (mol reads : Mat)
    (gids : List String) (mt : PyNum) (fm : Bool) :
    (matSum mol = 0 →
       create_filtered_dense_count_matrix S mol reads gids mt fm
         = .error .emptyMatrix) ∧
    (0 < matSum mol →
       create_filtered_dense_count_matrix S mol reads gids mt fm
         ≠ .error .emptyMatrix) := by
  constructor
  · intro h0
    unfold create_filtered_dense_count_matrix
    rw [if_pos h0]
  · intro hpos heq
    unfold create_filtered_dense_count_matrix at heq
    rw [if_neg (by omega)] at heq
    cases mt with
    | int n => simp at heq
    | float q =>
      have h2 : (if 0 ≤ q ∧ q ≤ 1 then
            Except.ok (pipelineRun S mol reads gids q fm)
          else (Except.error PipeError.valueError : Except PipeError PipeResult))
          = .error .emptyMatrix := heq
      by_cases hq : 0 ≤ q ∧ q ≤ 1
      · rw [if_pos hq] at h2
        simp at h2
      · rw [if_neg hq] at h2
        simp at h2

/-- C5 witness: the all-zero one-cell matrix fails with the empty-matrix
error; the positive matrix does not. -/
theorem C5_empty_matrix_error_witness :
    create_filtered_dense_count_matrix S0 Z1 Z1 ["A"] (.float (1 / 5)) true
        = .error .emptyMatrix ∧
    create_filtered_dense_count_matrix S0 M3 M3 ["A"] (.float (1 / 5)) true
        ≠ .error .emptyMatrix :=
  ⟨(C5_empty_matrix_error S0 Z1 Z1 ["A"] (.float (1 / 5)) true).1 (by decide),
   (C5_empty_matrix_error S0 M3 M3 ["A"] (.float (1 / 5)) true).2 (by decide)⟩

/-- C8 counterexample: on the all-zero matrix with the non-float parameter
`int 2`, the call fails with the empty-matrix error, not a bad-parameter
error — the emptiness check runs first, so the claim "for every call with a
bad `max_mt_content` the call fails with a bad-parameter error" is false. -/
theorem C8_counterexample :
    create_filtered_dense_count_matrix S0 Z1 Z1 ["A"] (.int 2) true
        = .error .emptyMatrix ∧
    PipeError.emptyMatrix ≠ PipeError.typeError ∧
    PipeError.emptyMatrix ≠ PipeError.valueError := by
  refine ⟨by decide, by decide, by decide⟩

/-- C8 amended: for every call on a non-empty matrix (the empty-matrix check
precedes parameter validation), a non-float `max_mt_content` fails with the
wrong-type error and a float outside [0, 1] fails with the out-of-range
error, regardless of whether the mitochondrial stage is enabled. -/
theorem C8_bad_param_error (S : StatModel) (mol reads : Mat)
    (gids : List String) (mt : PyNum) (fm : Bool) (h0 : matSum mol ≠ 0) :
    (∀ n : ℤ, mt = .int n →
       create_filtered_dense_count_matrix S mol reads gids mt fm
         = .error .typeError) ∧
    (∀ q : ℚ, mt = .float q → ¬ (0 ≤ q ∧ q ≤ 1) →
       create_filtered_dense_count_matrix S mol reads gids mt fm
         = .error .valueError) := by
  constructor
  · rintro n rfl
    unfold create_filtered_dense_count_matrix
    rw [if_neg h0]
  · rintro q rfl hq
    unfold create_filtered_dense_count_matrix
    rw [if_neg h0]
    exact if_neg hq

/-- C8 witness: on a non-empty matrix, an integer parameter raises the
wrong-type error (with the mitochondrial stage enabled) and the float 2
raises the out-of-range error (with the stage disabled). -/
theorem C8_bad_param_error_witness :
    create_filtered_dense_count_matrix S0 M3 M3 ["A"] (.int 2) true
        = .error .typeError ∧
    create_filtered_dense_count_matrix S0 M3 M3 ["A"] (.float 2) false
        = .error .valueError :=
  ⟨(C8_bad_param_error S0 M3 M3 ["A"] (.int 2) true (by decide)).1 2 rfl,
   (C8_bad_param_error S0 M3 M3 ["A"] (.float 2) false (by decide)).2 2 rfl
     (by with_unfolding_all decide)⟩
